import Mathlib

set_option maxRecDepth 8000

/-! Shallow embedding of src/scraper.py (Heimbas-Calender).

Strings are modelled as Lean String / List Char. The Python regular
expressions of the source are translated into explicit backtracking
matchers specialised to exactly the patterns the source uses, with
Python re semantics (leftmost match, ordered alternation, greedy
quantifiers with backtracking, ASCII word and whitespace classes).
Python datetimes in the Europe/Berlin zone are modelled as wall-clock
minutes since 0001-01-01 00:00 (proleptic Gregorian), with the zone
offset given by the EU daylight-saving rule in force since 1996 (the
rule covering every date this program processes); conversion to UTC
instants models datetime.astimezone(timezone.utc) with PEP-495 fold=0
semantics. hashlib.sha1 is implemented in full over byte lists. -/

/-! ### Character classes (ASCII, as used by the Python regexes on this data) -/

def chN (c : Char) : Nat := c.toNat

def digitB (c : Char) : Bool := 48 ≤ chN c && chN c ≤ 57

def alphaB (c : Char) : Bool := (65 ≤ chN c && chN c ≤ 90) || (97 ≤ chN c && chN c ≤ 122)

def wordB (c : Char) : Bool := digitB c || alphaB c || chN c == 95

def wsB (c : Char) : Bool :=
  chN c == 32 || chN c == 9 || chN c == 10 || chN c == 13 || chN c == 11 || chN c == 12

def lowerC (c : Char) : Char :=
  if 65 ≤ chN c && chN c ≤ 90 then Char.ofNat (chN c + 32) else c

def dv (c : Char) : Nat := chN c - 48

/-! ### Python string helpers: strip, lower, split, join, substring test -/

def pyStripL (l : List Char) : List Char :=
  ((l.dropWhile wsB).reverse.dropWhile wsB).reverse

def pyStrip (s : String) : String := String.mk (pyStripL s.data)

def lowerL (l : List Char) : List Char := l.map lowerC

def pyLower (s : String) : String := String.mk (lowerL s.data)

def splitCharGo (sep : Char) (acc : List Char) : List Char → List (List Char)
  | [] => [acc.reverse]
  | c :: cs =>
    if chN c == chN sep then acc.reverse :: splitCharGo sep [] cs
    else splitCharGo sep (c :: acc) cs

/-- Python str.split(sep) for a one-character separator (keeps empty pieces). -/
def splitChar (sep : Char) (s : String) : List String :=
  (splitCharGo sep [] s.data).map String.mk

def joinSep (sep : String) : List String → String
  | [] => ""
  | [x] => x
  | x :: xs => x ++ sep ++ joinSep sep xs

def startsWithL : List Char → List Char → Bool
  | [], _ => true
  | _ :: _, [] => false
  | p :: ps, c :: cs => chN p == chN c && startsWithL ps cs

/-- Python `needle in hay` substring test. -/
def isSubL (needle : List Char) : List Char → Bool
  | [] => startsWithL needle []
  | c :: cs => startsWithL needle (c :: cs) || isSubL needle cs

def containsC (c : Char) (s : String) : Bool := s.data.any (fun d => chN d == chN c)

/-- Python int() restricted to nonempty all-digit strings (the only shape fed
to it by this pipeline, whose numeric strings come from the digit regexes). -/
def intOfDigits (l : List Char) : Option Nat :=
  if l.isEmpty then none
  else if l.all digitB then some (l.foldl (fun a c => a * 10 + dv c) 0)
  else none

/-! ### Proleptic-Gregorian civil calendar (days since 0001-01-01) -/

def isLeap (y : Nat) : Bool := (y % 4 == 0 && y % 100 != 0) || y % 400 == 0

def daysInMonth (y m : Nat) : Nat :=
  if m == 2 then (if isLeap y then 29 else 28)
  else if m == 4 || m == 6 || m == 9 || m == 11 then 30
  else 31

/-- Days-from-civil (Hinnant), era epoch 0000-03-01; valid for year ≥ 1. -/
def hinnantDays (y m d : Nat) : Nat :=
  let y' := if m ≤ 2 then y - 1 else y
  let era := y' / 400
  let yoe := y' % 400
  let mp := if 2 < m then m - 3 else m + 9
  let doy := (153 * mp + 2) / 5 + d - 1
  let doe := (yoe * 365 + yoe / 4 - yoe / 100) + doy
  era * 146097 + doe

/-- Days since 0001-01-01 (that day is day 0). -/
def civilDays (y m d : Nat) : Nat := hinnantDays y m d - 306

/-- Inverse of civilDays: (year, month, day) from days since 0001-01-01. -/
def daysToCivil (z : Nat) : Nat × Nat × Nat :=
  let z0 := z + 306
  let era := z0 / 146097
  let doe := z0 % 146097
  let yoe := ((doe - doe / 1460) + doe / 36524 - doe / 146096) / 365
  let y' := yoe + era * 400
  let doy := doe - (yoe * 365 + yoe / 4 - yoe / 100)
  let mp := (5 * doy + 2) / 153
  let d := doy - (153 * mp + 2) / 5 + 1
  let m := if mp < 10 then mp + 3 else mp - 9
  (if m ≤ 2 then y' + 1 else y', m, d)

/-- Day of week with Sunday = 0 (0001-01-01, day 0, was a Monday). -/
def dowSun0 (days : Nat) : Nat := (days + 1) % 7

/-- Wall-clock (or UTC) minutes since 0001-01-01 00:00. -/
def wallMinutes (y m d h mi : Nat) : Nat := civilDays y m d * 1440 + h * 60 + mi

/-! ### Europe/Berlin offset (EU rule since 1996) and UTC conversion -/

/-- Day of month of the last Sunday of month m (March and October have 31 days). -/
def lastSundayDay (y m : Nat) : Nat := 31 - dowSun0 (civilDays y m 31)

/-- UTC offset in minutes of a Europe/Berlin wall-clock instant, zoneinfo
fold=0 semantics: DST (+120) from the last Sunday of March 03:00 wall clock
up to (excluding) the last Sunday of October 03:00 wall clock; gap times get
the pre-transition offset and ambiguous times the first (DST) offset. -/
def berlinOffsetMin (w : Nat) : Nat :=
  let y := (daysToCivil (w / 1440)).1
  let dstStart := wallMinutes y 3 (lastSundayDay y 3) 3 0
  let dstEnd := wallMinutes y 10 (lastSundayDay y 10) 3 0
  if dstStart ≤ w && w < dstEnd then 120 else 60

/-- datetime.astimezone(timezone.utc) on a Europe/Berlin wall-clock value. -/
def utcOfWall (w : Nat) : Nat := w - berlinOffsetMin w

def digitC (n : Nat) : Char := Char.ofNat (48 + n % 10)

def pad2 (n : Nat) : List Char := [digitC (n / 10), digitC n]

def pad4 (n : Nat) : List Char := [digitC (n / 1000), digitC (n / 100), digitC (n / 10), digitC n]

/-- datetime.isoformat() of a UTC datetime with zero seconds:
YYYY-MM-DDTHH:MM:SS+00:00. -/
def isoUtc (u : Nat) : String :=
  let z := u / 1440
  let rem := u % 1440
  let c := daysToCivil z
  String.mk (pad4 c.1 ++ '-' :: pad2 c.2.1 ++ '-' :: pad2 c.2.2 ++
    'T' :: pad2 (rem / 60) ++ ':' :: pad2 (rem % 60) ++ ":00+00:00".data)

/-! ### extract_date — re.search of (\d{1,2}\.\d{1,2}\.(?:\d{2}|\d{4})) -/

def isDot (c : Char) : Bool := chN c == 46

def dayDotTail (c1 : Char) : List Char → Option (List Char × List Char)
  | [] => none
  | c2 :: r2 =>
    if digitB c2 then
      match r2 with
      | c3 :: r3 => if isDot c3 then some ([c1, c2, c3], r3) else none
      | [] => none
    else if isDot c2 then some ([c1, c2], r2) else none

/-- Greedy \d{1,2}\. with backtracking: two digits then a dot, else one digit
then a dot. Returns (consumed, rest). -/
def dayDot : List Char → Option (List Char × List Char)
  | [] => none
  | c1 :: r1 => if digitB c1 then dayDotTail c1 r1 else none

def year2 : List Char → Option (List Char)
  | y1 :: y2 :: _ => if digitB y1 && digitB y2 then some [y1, y2] else none
  | _ => none

def year4 : List Char → Option (List Char)
  | y1 :: y2 :: y3 :: y4 :: _ =>
    if digitB y1 && digitB y2 && digitB y3 && digitB y4 then some [y1, y2, y3, y4] else none
  | _ => none

/-- Match of the date pattern anchored at the current position. The (?:\d{2}|\d{4})
alternation is ordered: the two-digit branch is tried first; the four-digit
branch can in fact never apply (it is kept to mirror the source pattern). -/
def matchDateAt (cs : List Char) : Option (List Char) :=
  match dayDot cs with
  | none => none
  | some (d, r1) =>
    match dayDot r1 with
    | none => none
    | some (m, r2) =>
      match year2 r2 with
      | some y => some (d ++ m ++ y)
      | none =>
        match year4 r2 with
        | some y => some (d ++ m ++ y)
        | none => none

def findDate : List Char → Option (List Char)
  | [] => none
  | c :: cs =>
    match matchDateAt (c :: cs) with
    | some m => some m
    | none => findDate cs

/-- scraper.extract_date. -/
def extract_date (s : String) : Option String := (findDate s.data).map String.mk

/-! ### extract_time_range — date stripping, dash pair, von..bis, single time -/

def noWordAhead : List Char → Bool
  | [] => true
  | c :: _ => !wordB c

def year2B : List Char → Option (List Char)
  | y1 :: y2 :: r => if digitB y1 && digitB y2 && noWordAhead r then some r else none
  | _ => none

def year4B : List Char → Option (List Char)
  | y1 :: y2 :: y3 :: y4 :: r =>
    if digitB y1 && digitB y2 && digitB y3 && digitB y4 && noWordAhead r then some r else none
  | _ => none

/-- Match of \b\d{1,2}\.\d{1,2}\.(?:\d{2}|\d{4})\b at the current position
(the leading \b is checked by the caller); returns the rest after the match.
Here the four-digit year branch is live, because the two-digit branch can
fail its trailing \b. -/
def matchDateSubAt (cs : List Char) : Option (List Char) :=
  match dayDot cs with
  | none => none
  | some (_, r1) =>
    match dayDot r1 with
    | none => none
    | some (_, r2) =>
      match year2B r2 with
      | some r => some r
      | none => year4B r2

/-- re.sub of the date pattern by a single space. prevWord tracks whether the
preceding character of the original text is a word character (for \b); the
fuel argument is the length of the remaining text. -/
def sanitizeGo : Nat → Bool → List Char → List Char
  | 0, _, cs => cs
  | _ + 1, _, [] => []
  | fuel + 1, prevWord, c :: cs =>
    match (if prevWord then none else matchDateSubAt (c :: cs)) with
    | some rest => ' ' :: sanitizeGo fuel true rest
    | none => c :: sanitizeGo fuel (wordB c) cs

def sanitizeDates (l : List Char) : List Char := sanitizeGo l.length false l

def isSep (c : Char) : Bool := chN c == 58 || chN c == 46

def minPart : List Char → Option (List Char × List Char)
  | m1 :: m2 :: r => if digitB m1 && digitB m2 && noWordAhead r then some ([m1, m2], r) else none
  | _ => none

def matchTimeTail (c1 : Char) : List Char → Option (List Char × List Char)
  | [] => none
  | c2 :: r2 =>
    if digitB c2 then
      match r2 with
      | c3 :: r3 =>
        if isSep c3 then
          match minPart r3 with
          | some (ms, r) => some (c1 :: c2 :: c3 :: ms, r)
          | none => none
        else none
      | [] => none
    else if isSep c2 then
      match minPart r2 with
      | some (ms, r) => some (c1 :: c2 :: ms, r)
      | none => none
    else none

/-- Time pattern \b\d{1,2}[:\.]\d{2}\b anchored at the current position (the
leading \b is checked by the caller). -/
def matchTime : List Char → Option (List Char × List Char)
  | [] => none
  | c1 :: r1 => if digitB c1 then matchTimeTail c1 r1 else none

def isDash (c : Char) : Bool := chN c == 45 || chN c == 8211

def matchDashPairAt (cs : List Char) : Option (String × String) :=
  match matchTime cs with
  | none => none
  | some (t1, r1) =>
    match r1.dropWhile wsB with
    | [] => none
    | d :: r3 =>
      if isDash d then
        match matchTime (r3.dropWhile wsB) with
        | some (t2, _) => some (String.mk t1, String.mk t2)
        | none => none
      else none

def findDashPair : Bool → List Char → Option (String × String)
  | _, [] => none
  | prevWord, c :: cs =>
    match (if prevWord then none else matchDashPairAt (c :: cs)) with
    | some p => some p
    | none => findDashPair (wordB c) cs

/-- Whitespace run \s* and then a time whose leading \b sees the last consumed
character. -/
def wsThenTime : Bool → List Char → Option (List Char × List Char)
  | _, [] => none
  | prevWord, c :: cs =>
    if wsB c then wsThenTime false cs
    else if prevWord then none
    else matchTime (c :: cs)

def lowEq (c l : Char) : Bool := chN (lowerC c) == chN l

def matchVonBisAt : List Char → Option (String × String)
  | v :: o :: n :: rest =>
    if lowEq v 'v' && lowEq o 'o' && lowEq n 'n' then
      match wsThenTime true rest with
      | none => none
      | some (t1, r1) =>
        match r1.dropWhile wsB with
        | b :: i :: s :: r3 =>
          if lowEq b 'b' && lowEq i 'i' && lowEq s 's' then
            match wsThenTime true r3 with
            | none => none
            | some (t2, _) => some (String.mk t1, String.mk t2)
          else none
        | _ => none
    else none
  | _ => none

def findVonBis : List Char → Option (String × String)
  | [] => none
  | c :: cs =>
    match matchVonBisAt (c :: cs) with
    | some p => some p
    | none => findVonBis cs

def findSingleTime : Bool → List Char → Option String
  | _, [] => none
  | prevWord, c :: cs =>
    match (if prevWord then none else matchTime (c :: cs)) with
    | some (t, _) => some (String.mk t)
    | none => findSingleTime (wordB c) cs

/-- scraper.extract_time_range. -/
def extract_time_range (s : String) : Option String × Option String :=
  let t := sanitizeDates s.data
  match findDashPair false t with
  | some (a, b) => (some a, some b)
  | none =>
    match findVonBis t with
    | some (a, b) => (some a, some b)
    | none =>
      match findSingleTime false t with
      | some a => (some a, none)
      | none => (none, none)

/-! ### extract_duration_minutes -/

/-- Python round() on the exact rational num/den (round half to even).
For the fractions this program builds (F*60/10, F*60/100 with F < 100) the
float computation of the source never differs from the exact value. -/
def roundHalfEven (num den : Nat) : Nat :=
  let q := num / den
  let r := num % den
  if 2 * r < den then q
  else if den < 2 * r then q + 1
  else if q % 2 == 0 then q else q + 1

/-- Unit alternative (min|minute|minuten)\b, ordered, on lowercased text. -/
def unitMinB (r : List Char) : Bool :=
  (startsWithL "min".data r && noWordAhead (r.drop 3)) ||
  (startsWithL "minute".data r && noWordAhead (r.drop 6)) ||
  (startsWithL "minuten".data r && noWordAhead (r.drop 7))

def unitAfterMin (r : List Char) : Bool := unitMinB (r.dropWhile wsB)

/-- Minutes pattern (\d{1,3})\s*(min|minute|minuten)\b at the current position;
greedy digit count with backtracking (3, then 2, then 1). -/
def minTry3 : List Char → Option Nat
  | a :: b :: c :: r =>
    if digitB a && digitB b && digitB c && unitAfterMin r then
      some (100 * dv a + 10 * dv b + dv c) else none
  | _ => none

def minTry2 : List Char → Option Nat
  | a :: b :: r =>
    if digitB a && digitB b && unitAfterMin r then some (10 * dv a + dv b) else none
  | _ => none

def minTry1 : List Char → Option Nat
  | a :: r => if digitB a && unitAfterMin r then some (dv a) else none
  | _ => none

def minTryAt (cs : List Char) : Option Nat :=
  match minTry3 cs with
  | some v => some v
  | none =>
    match minTry2 cs with
    | some v => some v
    | none => minTry1 cs

def findMinutes : List Char → Option Nat
  | [] => none
  | c :: cs =>
    match minTryAt (c :: cs) with
    | some v => some v
    | none => findMinutes cs

/-- Unit alternative (h|std|stunde|stunden)\b, ordered, on lowercased text. -/
def unitHourB (r : List Char) : Bool :=
  (startsWithL "h".data r && noWordAhead (r.drop 1)) ||
  (startsWithL "std".data r && noWordAhead (r.drop 3)) ||
  (startsWithL "stunde".data r && noWordAhead (r.drop 6)) ||
  (startsWithL "stunden".data r && noWordAhead (r.drop 7))

/-- Tail \s*(h|std|stunde|stunden)?\b directly after a digit. The greedy \s* can
give back characters: with a unit after the whitespace run the unit path
applies; otherwise, if any whitespace follows the digit, \s* backtracks to
empty and \b holds between the digit and the whitespace; with no whitespace,
\b needs a non-word character (or the end) next. -/
def tailOkH (r : List Char) : Bool :=
  if unitHourB (r.dropWhile wsB) then true
  else
    match r with
    | [] => true
    | c :: _ => wsB c || !wordB c

def isFracSep (c : Char) : Bool := chN c == 46 || chN c == 44

/-- Fraction and tail ([\.,](\d{1,2}))?\s*(h|std|stunde|stunden)?\b after the
hour digits, with the greedy fraction tried at two digits, one digit, then
absent. -/
def fracTry2 (h : Nat) : List Char → Option Nat
  | s :: d1 :: d2 :: r2 =>
    if isFracSep s && digitB d1 && digitB d2 && tailOkH r2 then
      some (h * 60 + roundHalfEven ((10 * dv d1 + dv d2) * 60) 100) else none
  | _ => none

def fracTry1 (h : Nat) : List Char → Option Nat
  | s :: d1 :: r2 =>
    if isFracSep s && digitB d1 && tailOkH r2 then
      some (h * 60 + roundHalfEven (dv d1 * 60) 10) else none
  | _ => none

/-- Fraction and tail ([\.,](\d{1,2}))?\s*(h|std|stunde|stunden)?\b after the
hour digits, with the greedy fraction tried at two digits, one digit, then
absent. -/
def fracTry (h : Nat) (r : List Char) : Option Nat :=
  match fracTry2 h r with
  | some v => some v
  | none =>
    match fracTry1 h r with
    | some v => some v
    | none => if tailOkH r then some (h * 60) else none

/-- Hour pattern (\d{1,2})([\.,](\d{1,2}))?\s*(h|std|stunde|stunden)?\b at the
current position; greedy hour digits with backtracking. -/
def hoursTryAt (cs : List Char) : Option Nat :=
  match cs with
  | [] => none
  | c1 :: r1 =>
    if digitB c1 then
      match (match r1 with
             | c2 :: r2 => if digitB c2 then fracTry (10 * dv c1 + dv c2) r2 else none
             | [] => none) with
      | some v => some v
      | none => fracTry (dv c1) r1
    else none

def findHours : List Char → Option Nat
  | [] => none
  | c :: cs =>
    match hoursTryAt (c :: cs) with
    | some v => some v
    | none => findHours cs

/-- scraper.extract_duration_minutes. -/
def extract_duration_minutes (s : String) : Option Nat :=
  let t := lowerL (pyStripL s.data)
  match findMinutes t with
  | some v => some v
  | none => findHours t

/-! ### infer_description and infer_address -/

/-- max(cells, key=len): the first cell of maximal character length; the
source never calls this on an empty list (rows have at least two cells). -/
def maxByLen : List String → String
  | [] => ""
  | c :: rest => rest.foldl (fun acc x => if acc.length < x.length then x else acc) c

/-- scraper.infer_description. -/
def infer_description (cells : List String) : String := pyStrip (maxByLen cells)

def startsWithIL : List Char → List Char → Bool
  | [], _ => true
  | _ :: _, [] => false
  | p :: ps, c :: cs => chN (lowerC c) == chN p && startsWithIL ps cs

/-- adresse\s*[:\-]\s*(.+)$ (case-insensitive) at the current position,
returning the stripped captured group. If only whitespace follows the colon
the greedy \s* gives one character back to the mandatory (.+), whose stripped
value is then empty. -/
def adresseAt (cs : List Char) : Option (List Char) :=
  if startsWithIL "adresse".data cs then
    match (cs.drop 7).dropWhile wsB with
    | c :: r3 =>
      if chN c == 58 || chN c == 45 then
        let u := r3.dropWhile wsB
        if u.isEmpty then (if r3.isEmpty then none else some [])
        else some (pyStripL u)
      else none
    | [] => none
  else none

def findAdresse : List Char → Option (List Char)
  | [] => none
  | c :: cs =>
    match adresseAt (c :: cs) with
    | some g => some g
    | none => findAdresse cs

def fiveAt : List Char → Bool
  | d1 :: d2 :: d3 :: d4 :: d5 :: r =>
    digitB d1 && digitB d2 && digitB d3 && digitB d4 && digitB d5 && noWordAhead r
  | _ => false

def hasFiveDigit : Bool → List Char → Bool
  | _, [] => false
  | prevWord, c :: cs => (!prevWord && fiveAt (c :: cs)) || hasFiveDigit (wordB c) cs

/-- re.search(r"\b\d{5}\b", s) as a Bool. -/
def has5 (s : String) : Bool := hasFiveDigit false s.data

/-- The stripped nonempty lines of the description. -/
def candLines (description : String) : List String :=
  ((splitChar '\n' description).map pyStrip).filter (fun l => !(l == ""))

/-- scraper.infer_address. -/
def infer_address (description : String) (cells : List String) : Option String :=
  ((candLines description).findSome? (fun l => (findAdresse l.data).map String.mk)).orElse
  (fun _ => ((candLines description).find? (fun l => has5 l)).orElse
  (fun _ => ((cells.find? (fun c => has5 c)).map pyStrip).orElse
  (fun _ =>
    match (candLines description).getLast? with
    | some last => if 10 < last.length then some last else none
    | none => none)))

/-! ### Dauer header detection -/

def dauerAt (cs : List Char) : Bool := startsWithIL "dauer".data cs && noWordAhead (cs.drop 5)

def hasDauerGo : Bool → List Char → Bool
  | _, [] => false
  | prevWord, c :: cs => (!prevWord && dauerAt (c :: cs)) || hasDauerGo (wordB c) cs

/-- re.search(r"\bdauer\b", s, re.I) as a Bool. -/
def hasDauer (s : String) : Bool := hasDauerGo false s.data

/-! ### SHA-1 (hashlib.sha1) over byte lists, words as Nat mod 2^32 -/

def utf8Char (c : Char) : List Nat :=
  let n := chN c
  if n < 128 then [n]
  else if n < 2048 then [192 ||| (n >>> 6), 128 ||| (n &&& 63)]
  else if n < 65536 then
    [224 ||| (n >>> 12), 128 ||| ((n >>> 6) &&& 63), 128 ||| (n &&& 63)]
  else
    [240 ||| (n >>> 18), 128 ||| ((n >>> 12) &&& 63), 128 ||| ((n >>> 6) &&& 63), 128 ||| (n &&& 63)]

def utf8 (s : String) : List Nat := (s.data.map utf8Char).flatten

def rotl (k n : Nat) : Nat := ((n <<< k) ||| (n >>> (32 - k))) &&& 4294967295

def toWords : List Nat → List Nat
  | a :: b :: c :: d :: rest => ((a <<< 24) ||| (b <<< 16) ||| (c <<< 8) ||| d) :: toWords rest
  | _ => []

/-- Message-schedule extension; the accumulator holds the words most recent
first, fuel counts the words still to produce. -/
def extendWords : Nat → List Nat → List Nat
  | 0, acc => acc.reverse
  | n + 1, acc =>
    extendWords n
      (rotl 1 (acc.getD 2 0 ^^^ acc.getD 7 0 ^^^ acc.getD 13 0 ^^^ acc.getD 15 0) :: acc)

def sha1F (i b c d : Nat) : Nat :=
  if i < 20 then (b &&& c) ||| ((b ^^^ 4294967295) &&& d)
  else if i < 40 then b ^^^ c ^^^ d
  else if i < 60 then (b &&& c) ||| (b &&& d) ||| (c &&& d)
  else b ^^^ c ^^^ d

def sha1K (i : Nat) : Nat :=
  if i < 20 then 1518500249
  else if i < 40 then 1859775393
  else if i < 60 then 2400959708
  else 3395469782

def sha1Rounds : List Nat → Nat → Nat × Nat × Nat × Nat × Nat → Nat × Nat × Nat × Nat × Nat
  | [], _, st => st
  | w :: rest, i, (a, b, c, d, e) =>
    sha1Rounds rest (i + 1)
      ((rotl 5 a + sha1F i b c d + e + sha1K i + w) % 4294967296, a, rotl 30 b, c, d)

def sha1Chunk (bytes64 : List Nat) (h : Nat × Nat × Nat × Nat × Nat) :
    Nat × Nat × Nat × Nat × Nat :=
  let ws := extendWords 64 (toWords bytes64).reverse
  match h, sha1Rounds ws 0 h with
  | (h0, h1, h2, h3, h4), (a, b, c, d, e) =>
    ((h0 + a) % 4294967296, (h1 + b) % 4294967296, (h2 + c) % 4294967296,
     (h3 + d) % 4294967296, (h4 + e) % 4294967296)

def sha1Chunks : Nat → List Nat → Nat × Nat × Nat × Nat × Nat → Nat × Nat × Nat × Nat × Nat
  | 0, _, h => h
  | n + 1, bytes, h => sha1Chunks n (bytes.drop 64) (sha1Chunk (bytes.take 64) h)

/-- SHA-1 padding: 0x80, zeros to 56 mod 64, then the bit length big-endian. -/
def sha1Pad (msg : List Nat) : List Nat :=
  let ml := msg.length
  let bl := ml * 8
  msg ++ 128 :: List.replicate ((119 - ml % 64) % 64) 0 ++
    [(bl >>> 56) &&& 255, (bl >>> 48) &&& 255, (bl >>> 40) &&& 255, (bl >>> 32) &&& 255,
     (bl >>> 24) &&& 255, (bl >>> 16) &&& 255, (bl >>> 8) &&& 255, bl &&& 255]

def hexDigitC (n : Nat) : Char := Char.ofNat (if n < 10 then 48 + n else 87 + n)

def toHex8 (w : Nat) : List Char :=
  [hexDigitC ((w >>> 28) &&& 15), hexDigitC ((w >>> 24) &&& 15), hexDigitC ((w >>> 20) &&& 15),
   hexDigitC ((w >>> 16) &&& 15), hexDigitC ((w >>> 12) &&& 15), hexDigitC ((w >>> 8) &&& 15),
   hexDigitC ((w >>> 4) &&& 15), hexDigitC (w &&& 15)]

def sha1Digest (msg : List Nat) : Nat × Nat × Nat × Nat × Nat :=
  sha1Chunks ((sha1Pad msg).length / 64) (sha1Pad msg)
    (1732584193, 4023233417, 2562383102, 271733878, 3285377520)

/-- hashlib.sha1(bytes).hexdigest(). -/
def sha1Hex (msg : List Nat) : String :=
  String.mk (toHex8 (sha1Digest msg).1 ++ toHex8 (sha1Digest msg).2.1 ++
    toHex8 (sha1Digest msg).2.2.1 ++ toHex8 (sha1Digest msg).2.2.2.1 ++
    toHex8 (sha1Digest msg).2.2.2.2)

/-! ### The schedule entry record and the field parsers -/

structure Entry where
  date : String
  start_time : String
  end_time : Option String
  description : String
  address : Option String
  duration_minutes : Option Nat
  title : Option String := none
deriving DecidableEq, Repr

structure GregDate where
  year : Nat
  month : Nat
  day : Nat
deriving DecidableEq, Repr

/-- Python datetime(year, month, day) range validation. -/
def validDate (y m d : Nat) : Bool :=
  1 ≤ y && y ≤ 9999 && 1 ≤ m && m ≤ 12 && 1 ≤ d && d ≤ daysInMonth y m

/-- scraper.parse_german_date: split on the dots (exactly three parts, or the
tuple unpacking raises), expand a two-digit year (00-69 to 20xx, 70-99 to
19xx), and validate via datetime(); raising is modelled as none. -/
def parse_german_date (s : String) : Option GregDate :=
  match splitChar '.' s with
  | [ds, ms, ys] =>
    let ys' : Option (List Char) :=
      if ys.data.length == 2 then
        match intOfDigits ys.data with
        | some v => some (if v < 70 then '2' :: '0' :: ys.data else '1' :: '9' :: ys.data)
        | none => none
      else some ys.data
    match ys' with
    | none => none
    | some yl =>
      match intOfDigits yl, intOfDigits ms.data, intOfDigits ds.data with
      | some y, some m, some d => if validDate y m d then some ⟨y, m, d⟩ else none
      | _, _, _ => none
  | _ => none

/-- scraper.parse_time: split on sep (exactly two parts, or the unpacking
raises), convert, and range-check hour 0-23 and minute 0-59. -/
def parse_time (s : String) : Option (Nat × Nat) :=
  let sep : Char := if containsC ':' s then ':' else '.'
  match splitChar sep s with
  | [hs, ms] =>
    match intOfDigits hs.data, intOfDigits ms.data with
    | some h, some m => if h ≤ 23 && m ≤ 59 then some (h, m) else none
    | _, _ => none
  | _ => none

/-! ### Identity hashers -/

/-- The four hash fields joined by the fixed delimiter of stable_uid. -/
def payload4 (a b c d : String) : String := a ++ "|" ++ b ++ "|" ++ c ++ "|" ++ d

/-- scraper.stable_uid. start and end are Europe/Berlin wall-clock minutes;
both are rendered via astimezone(utc).isoformat(). (In the source, end_dt is
a datetime and datetimes are always truthy, so the `if end_dt else ""` branch
never yields "".) The location argument models `location or ""`. -/
def stable_uid (startW endW : Nat) (location : Option String) (description : String) : String :=
  sha1Hex (utf8 (payload4 (isoUtc (utcOfWall startW)) (isoUtc (utcOfWall endW))
    (location.getD "") description)) ++ "@heimbas-ics"

/-- First line of the description, cut at the first sentence terminator
(. ! ?), stripped, defaulting to "Einsatz"; shared by build_ics and
make_einsatz_id_from_entry, which derive the title identically. -/
def deriveTitle (description : String) : String :=
  let firstLine := (splitChar '\n' description).headD ""
  let cut := String.mk (firstLine.data.takeWhile
    (fun c => !(chN c == 46 || chN c == 33 || chN c == 63)))
  let t := pyStrip cut
  if t == "" then "Einsatz" else t

/-- scraper.make_einsatz_id_from_entry. A missing end time becomes the string
"None" (str(None)), since the entries of parse_table_entries always carry the
end_time key; a missing address becomes "" via `or ""`. -/
def make_einsatz_id_from_entry (e : Entry) : String :=
  let date_str := pyStrip e.date
  let start_str := pyStrip e.start_time
  let end_str := match e.end_time with
    | some s => pyStrip s
    | none => "None"
  let address := match e.address with
    | some s => pyStrip s
    | none => ""
  let title := match e.title with
    | some t => if pyStrip t == "" then deriveTitle (pyStrip e.description) else pyStrip t
    | none => deriveTitle (pyStrip e.description)
  sha1Hex (utf8 (date_str ++ "|" ++ start_str ++ "|" ++ end_str ++ "|" ++ address ++ "|" ++ title))

/-! ### Entry resolution (the per-entry body of build_ics) -/

structure Event where
  uid : String
  dtstart : Nat
  dtend : Nat
  summary : String
  location : Option String
  descText : String
deriving DecidableEq, Repr

/-- Python truthiness of an optional string (None and "" are falsy). -/
def pyTruthyS : Option String → Bool
  | some s => !(s == "")
  | none => false

/-- The per-entry body of scraper.build_ics (lines 954-999): parse the date
and the start time, resolve the end instant (explicit end time when present,
replaced by start + 30 minutes when not strictly after the start; else a
positive duration; else 60 minutes), derive the title, and build the event
with uid = stable_uid(start, end, address, stripped description). Any raised
exception (invalid date or time) makes the whole entry come out as none,
which build_ics logs and skips. dtstart and dtend are Europe/Berlin
wall-clock minutes; the instant comparison end <= start is on UTC values as
Python compares aware datetimes. -/
def resolveEnd (dt : GregDate) (startW : Nat) (e : Entry) : Option Nat :=
  if pyTruthyS e.end_time then
    match parse_time (e.end_time.getD "") with
    | none => none
    | some (eh, em) =>
      some (if utcOfWall (wallMinutes dt.year dt.month dt.day eh em) ≤ utcOfWall startW
            then startW + 30 else wallMinutes dt.year dt.month dt.day eh em)
  else
    match e.duration_minutes with
    | some dmin => if 0 < dmin then some (startW + dmin) else some (startW + 60)
    | none => some (startW + 60)

def resolveEvent (e : Entry) : Option Event :=
  match parse_german_date e.date with
  | none => none
  | some dt =>
    match parse_time e.start_time with
    | none => none
    | some (sh, sm) =>
      match resolveEnd dt (wallMinutes dt.year dt.month dt.day sh sm) e with
      | none => none
      | some endW =>
        some { uid := stable_uid (wallMinutes dt.year dt.month dt.day sh sm) endW e.address
                 (pyStrip e.description),
               dtstart := wallMinutes dt.year dt.month dt.day sh sm, dtend := endW,
               summary := deriveTitle (pyStrip e.description),
               location := e.address, descText := pyStrip e.description }

/-- The event list scraper.build_ics serialises (failed entries skipped). -/
def build_ics_events (entries : List Entry) : List Event := entries.filterMap resolveEvent

/-! ### parse_table_entries. A table is modelled as its rows in order, a row
as the list of its cell texts (the get_text extraction of BeautifulSoup is
taken as given, one string per td/th cell). -/

def joinCells (cells : List String) : String := joinSep " | " cells

def durColIdxGo (i : Nat) : List String → Option Nat
  | [] => none
  | c :: cs => if hasDauer c then some i else durColIdxGo (i + 1) cs

/-- Index of the first header cell matching \bdauer\b (case-insensitive),
the enumerate loop of parse_table_entries. -/
def durColIdx (headerCells : List String) : Option Nat := durColIdxGo 0 headerCells

/-- Duration of a row: from the Dauer column cell when that column exists and
the row is long enough, falling back to the joined row text when the cell
yields nothing; from the joined row text alone otherwise. -/
def rowDuration (dcol : Option Nat) (cells : List String) : Option Nat :=
  let fromCol : Option Nat :=
    match dcol with
    | some j => if j < cells.length then extract_duration_minutes (cells.getD j "") else none
    | none => none
  match fromCol with
  | some v => some v
  | none => extract_duration_minutes (joinCells cells)

/-- One iteration of the row loop of parse_table_entries: rows with fewer
than two cells, and rows without an extractable date or start time, yield no
entry. -/
def rowEntry (dcol : Option Nat) (cells : List String) : Option Entry :=
  if cells.length < 2 then none
  else
    match extract_date (joinCells cells), (extract_time_range (joinCells cells)).1 with
    | some d, some st =>
      some { date := d, start_time := st,
             end_time := (extract_time_range (joinCells cells)).2,
             description := infer_description cells,
             address := infer_address (infer_description cells) cells,
             duration_minutes := rowDuration dcol cells }
    | _, _ => none

def headerRow (t : List (List String)) : List String := t.headD []

/-- All entries of the chosen table; the Dauer column index is taken from the
first row and the loop runs over every row including that first row. -/
def entriesOfTable (t : List (List String)) : List Entry :=
  t.filterMap (rowEntry (durColIdx (headerRow t)))

def einsatzKeywords : List String :=
  ["datum", "einsatz", "uhrzeit", "beschreibung", "adresse", "von", "bis"]

/-- Keyword heuristic choosing the schedule table: the lowercased join of all
cell texts of the table must contain one of the keywords. -/
def tableMatches (t : List (List String)) : Bool :=
  let header := pyLower (joinSep " " t.flatten)
  einsatzKeywords.any (fun k => isSubL k.data header.data)

/-- scraper.parse_table_entries on the tables of the document: no table at
all, no matching table, and a matching table without usable rows are three
distinct fatal errors (RuntimeError in the source). -/
def parse_table_entries (tables : List (List (List String))) : Except String (List Entry) :=
  if tables.isEmpty then Except.error "Keine Tabelle im HTML gefunden."
  else
    match tables.find? tableMatches with
    | none => Except.error "Keine passende Einsatz-Tabelle erkannt."
    | some t =>
      let entries := entriesOfTable t
      if entries.isEmpty then
        Except.error "Die Tabelle enthält keine auswertbaren Einsatz-Zeilen."
      else Except.ok entries

/-! ### Concrete values used by the claim checks -/

def entryA : Entry :=
  { date := "12.03.25", start_time := "09:00", end_time := some "10:00",
    description := "Besuch. A", address := none, duration_minutes := none }

def entryB : Entry :=
  { date := "12.03.25", start_time := "09:00", end_time := some "10:00",
    description := "Besuch. B", address := none, duration_minutes := none }

def entryC : Entry :=
  { date := "12.03.25", start_time := "09:00", end_time := some "10:00",
    description := "Besuch. A", address := none, duration_minutes := some 0 }

def entryBadMonth : Entry :=
  { date := "05.13.25", start_time := "10:00", end_time := none,
    description := "Besuch", address := none, duration_minutes := none }

def entryBadHour : Entry :=
  { date := "16.08.25", start_time := "24:00", end_time := none,
    description := "Besuch", address := none, duration_minutes := none }

def dCharAux : Nat → Char
  | 0 => '0'
  | 1 => '1'
  | 2 => '2'
  | 3 => '3'
  | 4 => '4'
  | 5 => '5'
  | 6 => '6'
  | 7 => '7'
  | 8 => '8'
  | _ => '9'

/-- The decimal digit character of n % 10, used to quantify over digit
characters in claim statements. -/
def dChar (n : Nat) : Char := dCharAux (n % 10)

def entryInv : Entry :=
  { date := "12.03.25", start_time := "09:00", end_time := some "08:30",
    description := "Besuch", address := none, duration_minutes := some 45 }

/-- One- or two-digit strings of digit characters, used to quantify over the
day and month shapes of the date pattern. -/
def digitShape12 (l : List Char) : Prop :=
  (∃ a : Nat, l = [dChar a]) ∨ (∃ a b : Nat, l = [dChar a, dChar b])

/-! ## Helper lemmas -/

theorem resolveEvent_uid (e : Entry) (ev : Event) (h : resolveEvent e = some ev) :
    ev.uid = stable_uid ev.dtstart ev.dtend ev.location ev.descText := by
  unfold resolveEvent at h
  split at h
  · exact Option.noConfusion h
  · split at h
    · exact Option.noConfusion h
    · split at h
      · exact Option.noConfusion h
      · injection h with h
        subst h
        rfl

theorem sha1Hex_length (msg : List Nat) : (sha1Hex msg).length = 40 := by
  show (sha1Hex msg).data.length = 40
  simp [sha1Hex, toHex8]

theorem bar_data : ("|" : String).data = ['|'] := rfl

theorem payload_field4 (a b c d d' : String) (h : payload4 a b c d = payload4 a b c d') :
    d = d' := by
  have hd := congrArg String.data h
  simp only [payload4, String.data_append, bar_data, List.append_assoc,
    List.singleton_append] at hd
  have h1 := List.append_cancel_left hd
  injection h1 with _ h2
  have h3 := List.append_cancel_left h2
  injection h3 with _ h4
  have h5 := List.append_cancel_left h4
  injection h5 with _ h6
  cases d; cases d'; exact congrArg String.mk h6

theorem payload_field3 (a b c c' d : String) (h : payload4 a b c d = payload4 a b c' d) :
    c = c' := by
  have hd := congrArg String.data h
  simp only [payload4, String.data_append, bar_data, List.append_assoc,
    List.singleton_append] at hd
  have h1 := List.append_cancel_left hd
  injection h1 with _ h2
  have h3 := List.append_cancel_left h2
  injection h3 with _ h4
  have h5 := List.append_cancel_right h4
  cases c; cases c'; exact congrArg String.mk h5

theorem payload_field2 (a b b' c d : String) (h : payload4 a b c d = payload4 a b' c d) :
    b = b' := by
  have hd := congrArg String.data h
  simp only [payload4, String.data_append, bar_data, List.append_assoc,
    List.singleton_append] at hd
  have h1 := List.append_cancel_left hd
  injection h1 with _ h2
  have h3 := List.append_cancel_right h2
  cases b; cases b'; exact congrArg String.mk h3

theorem payload_field1 (a a' b c d : String) (h : payload4 a b c d = payload4 a' b c d) :
    a = a' := by
  have hd := congrArg String.data h
  simp only [payload4, String.data_append, bar_data, List.append_assoc,
    List.singleton_append] at hd
  have h1 := List.append_cancel_right hd
  cases a; cases a'; exact congrArg String.mk h1

/-! ## Claim C1 -/

/-- Claim C1, counterexample: the event UID of build_ics is not a function of
(start, end, address, title). entryA and entryB resolve to events agreeing on
start instant, end instant, location and title (summary), yet their UIDs
differ, because stable_uid hashes the description, and the descriptions
"Besuch. A" and "Besuch. B" differ while both yield the title "Besuch". -/
theorem C1_counterexample :
    (build_ics_events [entryA]).map Event.dtstart
        = (build_ics_events [entryB]).map Event.dtstart ∧
    (build_ics_events [entryA]).map Event.dtend
        = (build_ics_events [entryB]).map Event.dtend ∧
    (build_ics_events [entryA]).map Event.location
        = (build_ics_events [entryB]).map Event.location ∧
    (build_ics_events [entryA]).map Event.summary
        = (build_ics_events [entryB]).map Event.summary ∧
    (build_ics_events [entryA]).map Event.uid
        ≠ (build_ics_events [entryB]).map Event.uid :=
  ⟨by decide, by decide, by decide, by decide, by decide⟩

/-- Claim C1, amended: the event UID is a pure function of exactly the four
fields (start instant, end instant, address or empty, description): two
resolved entries agreeing on those four fields get byte-identical UIDs; and
changing any one of the four fields changes the SHA-1 input payload (hence
the digest, barring a SHA-1 collision). -/
theorem C1_theorem :
    (∀ e1 e2 : Entry,
      (resolveEvent e1).isSome = true → (resolveEvent e2).isSome = true →
      (resolveEvent e1).map Event.dtstart = (resolveEvent e2).map Event.dtstart →
      (resolveEvent e1).map Event.dtend = (resolveEvent e2).map Event.dtend →
      (resolveEvent e1).map Event.location = (resolveEvent e2).map Event.location →
      (resolveEvent e1).map Event.descText = (resolveEvent e2).map Event.descText →
      (resolveEvent e1).map Event.uid = (resolveEvent e2).map Event.uid) ∧
    (∀ a a' b c d : String, payload4 a b c d = payload4 a' b c d → a = a') ∧
    (∀ a b b' c d : String, payload4 a b c d = payload4 a b' c d → b = b') ∧
    (∀ a b c c' d : String, payload4 a b c d = payload4 a b c' d → c = c') ∧
    (∀ a b c d d' : String, payload4 a b c d = payload4 a b c d' → d = d') := by
  refine ⟨?_, payload_field1, payload_field2, payload_field3, payload_field4⟩
  intro e1 e2 h1 h2 hs he hl hd
  rcases ha : resolveEvent e1 with _ | ev1
  · rw [ha] at h1; exact absurd h1 (by simp)
  rcases hb : resolveEvent e2 with _ | ev2
  · rw [hb] at h2; exact absurd h2 (by simp)
  rw [ha, hb] at hs he hl hd
  simp only [Option.map_some'] at hs he hl hd ⊢
  rw [resolveEvent_uid e1 ev1 ha, resolveEvent_uid e2 ev2 hb,
    Option.some.inj hs, Option.some.inj he, Option.some.inj hl, Option.some.inj hd]

/-- Claim C1, witness: entryA and entryC differ as entries (entryC carries a
duration), resolve to events with equal semantic fields, and the theorem
yields equal UIDs. -/
theorem C1_witness :
    (resolveEvent entryA).map Event.uid = (resolveEvent entryC).map Event.uid :=
  C1_theorem.1 entryA entryC (by decide) (by decide) (by decide) (by decide) (by decide)
    (by decide)

/-! ## Claim C2 -/

/-- Claim C2, counterexample: for one and the same entry, the calendar UID
(stable_uid, via build_ics) and the webhook identifier
(make_einsatz_id_from_entry) are not identical. -/
theorem C2_counterexample :
    (build_ics_events [entryA]).map Event.uid ≠ [make_einsatz_id_from_entry entryA] ∧
    make_einsatz_id_from_entry entryA
      = "f597280edbc2ec50dedb7910e134691b9a5102b3" :=
  ⟨by decide, by decide⟩

/-- Claim C2, amended: the two identifiers are never equal, for any inputs
whatsoever: stable_uid always ends in the 12-character suffix "@heimbas-ics"
on top of a 40-character digest, while make_einsatz_id_from_entry is a bare
40-character digest (the two moreover hash different payloads: UTC instants
and description versus raw cell texts and title). -/
theorem C2_theorem :
    ∀ (sw ew : Nat) (loc : Option String) (desc : String) (e : Entry),
      stable_uid sw ew loc desc ≠ make_einsatz_id_from_entry e := by
  intro sw ew loc desc e h
  have h1 : (stable_uid sw ew loc desc).length = 52 := by
    unfold stable_uid
    rw [String.length_append, sha1Hex_length]
    rfl
  have h2 : (make_einsatz_id_from_entry e).length = 40 := by
    unfold make_einsatz_id_from_entry
    exact sha1Hex_length _
  rw [h, h2] at h1
  exact absurd h1 (by norm_num)

theorem resolveEvent_times (e : Entry) (dt : GregDate) (sh sm endW : Nat)
    (hdate : parse_german_date e.date = some dt)
    (hstart : parse_time e.start_time = some (sh, sm))
    (hend : resolveEnd dt (wallMinutes dt.year dt.month dt.day sh sm) e = some endW) :
    (resolveEvent e).map (fun ev => (ev.dtstart, ev.dtend))
      = some (wallMinutes dt.year dt.month dt.day sh sm, endW) := by
  simp only [resolveEvent, hdate, hstart, hend]
  rfl

theorem resolveEnd_some_end (e : Entry) (et : String) (eh em : Nat) (dt : GregDate)
    (startW : Nat) (hend : e.end_time = some et) (hne : et ≠ "")
    (hpt : parse_time et = some (eh, em)) :
    resolveEnd dt startW e
      = some (if utcOfWall (wallMinutes dt.year dt.month dt.day eh em) ≤ utcOfWall startW
              then startW + 30
              else wallMinutes dt.year dt.month dt.day eh em) := by
  simp [resolveEnd, hend, hpt, pyTruthyS, hne]

theorem resolveEnd_dur (e : Entry) (dt : GregDate) (startW : Nat)
    (hfalse : pyTruthyS e.end_time = false) (dmin : Nat)
    (hdur : e.duration_minutes = some dmin) (hpos : 0 < dmin) :
    resolveEnd dt startW e = some (startW + dmin) := by
  simp [resolveEnd, hfalse, hdur, hpos]

theorem resolveEnd_default (e : Entry) (dt : GregDate) (startW : Nat)
    (hfalse : pyTruthyS e.end_time = false)
    (hdur : e.duration_minutes = none ∨ e.duration_minutes = some 0) :
    resolveEnd dt startW e = some (startW + 60) := by
  rcases hdur with h | h <;> simp [resolveEnd, hfalse, h]

/-- Claim C2, witness: the inequality of the two identifiers at the sample
entry and its resolved instants. -/
theorem C2_witness :
    stable_uid (wallMinutes 2025 3 12 9 0) (wallMinutes 2025 3 12 10 0) none "Besuch. A"
      ≠ make_einsatz_id_from_entry entryA :=
  C2_theorem (wallMinutes 2025 3 12 9 0) (wallMinutes 2025 3 12 10 0) none "Besuch. A" entryA

/-! ## Claim C5 -/

/-- Claim C5: for an entry whose date and start time parse, the resolved end
follows the precedence of build_ics: a parsing end time strictly after the
start (as instants) is used as is; a parsing end time at or before the start
is replaced by start + 30 minutes; otherwise a positive duration gives
start + duration; otherwise start + 60 minutes. -/
theorem C5_theorem :
    ∀ (e : Entry) (dt : GregDate) (sh sm : Nat),
      parse_german_date e.date = some dt →
      parse_time e.start_time = some (sh, sm) →
      ((∀ (et : String) (eh em : Nat), e.end_time = some et → et ≠ "" →
          parse_time et = some (eh, em) →
          (utcOfWall (wallMinutes dt.year dt.month dt.day sh sm)
              < utcOfWall (wallMinutes dt.year dt.month dt.day eh em) →
            (resolveEvent e).map (fun ev => (ev.dtstart, ev.dtend))
              = some (wallMinutes dt.year dt.month dt.day sh sm,
                  wallMinutes dt.year dt.month dt.day eh em)) ∧
          (utcOfWall (wallMinutes dt.year dt.month dt.day eh em)
              ≤ utcOfWall (wallMinutes dt.year dt.month dt.day sh sm) →
            (resolveEvent e).map (fun ev => (ev.dtstart, ev.dtend))
              = some (wallMinutes dt.year dt.month dt.day sh sm,
                  wallMinutes dt.year dt.month dt.day sh sm + 30))) ∧
       (pyTruthyS e.end_time = false →
          (∀ dmin : Nat, e.duration_minutes = some dmin → 0 < dmin →
            (resolveEvent e).map (fun ev => (ev.dtstart, ev.dtend))
              = some (wallMinutes dt.year dt.month dt.day sh sm,
                  wallMinutes dt.year dt.month dt.day sh sm + dmin)) ∧
          (e.duration_minutes = none ∨ e.duration_minutes = some 0 →
            (resolveEvent e).map (fun ev => (ev.dtstart, ev.dtend))
              = some (wallMinutes dt.year dt.month dt.day sh sm,
                  wallMinutes dt.year dt.month dt.day sh sm + 60)))) := by
  intro e dt sh sm hdate hstart
  constructor
  · intro et eh em hend hne hpt
    have hre := resolveEnd_some_end e et eh em dt
      (wallMinutes dt.year dt.month dt.day sh sm) hend hne hpt
    constructor
    · intro hlt
      rw [if_neg (by omega)] at hre
      exact resolveEvent_times e dt sh sm _ hdate hstart hre
    · intro hle
      rw [if_pos hle] at hre
      exact resolveEvent_times e dt sh sm _ hdate hstart hre
  · intro hfalse
    constructor
    · intro dmin hdur hpos
      exact resolveEvent_times e dt sh sm _ hdate hstart
        (resolveEnd_dur e dt _ hfalse dmin hdur hpos)
    · intro hdur
      exact resolveEvent_times e dt sh sm _ hdate hstart
        (resolveEnd_default e dt _ hfalse hdur)

/-- Claim C5, witness: the inverted entry (start 09:00, end 08:30) of the
spec resolves to end = start + 30 minutes. -/
theorem C5_witness :
    (resolveEvent entryInv).map (fun ev => (ev.dtstart, ev.dtend))
      = some (wallMinutes 2025 3 12 9 0, wallMinutes 2025 3 12 9 0 + 30) :=
  ((C5_theorem entryInv ⟨2025, 3, 12⟩ 9 0 (by decide) (by decide)).1
    "08:30" 8 30 rfl (by decide) (by decide)).2 (by decide)

/-! ## Claim C6 -/

/-- Claim C6: extract_time_range first strips all date-shaped substrings and
then tries, in fixed order with first match winning, the dash-separated pair,
the von..bis phrase, and a single bare time as start-only, returning
(absent, absent) when nothing matches; on the pipe-separated sample row the
date fragment is not read as a time and the dash pair is found. -/
theorem C6_theorem :
    (∀ s a b : String, findDashPair false (sanitizeDates s.data) = some (a, b) →
      extract_time_range s = (some a, some b)) ∧
    (∀ s a b : String, findDashPair false (sanitizeDates s.data) = none →
      findVonBis (sanitizeDates s.data) = some (a, b) →
      extract_time_range s = (some a, some b)) ∧
    (∀ s a : String, findDashPair false (sanitizeDates s.data) = none →
      findVonBis (sanitizeDates s.data) = none →
      findSingleTime false (sanitizeDates s.data) = some a →
      extract_time_range s = (some a, none)) ∧
    (∀ s : String, findDashPair false (sanitizeDates s.data) = none →
      findVonBis (sanitizeDates s.data) = none →
      findSingleTime false (sanitizeDates s.data) = none →
      extract_time_range s = (none, none)) ∧
    extract_time_range "13.08.25 | 08:00 – 09:15 | Hausbesuch"
      = (some "08:00", some "09:15") := by
  refine ⟨?_, ?_, ?_, ?_, by decide⟩
  · intro s a b h
    simp [extract_time_range, h]
  · intro s a b h1 h2
    simp [extract_time_range, h1, h2]
  · intro s a h1 h2 h3
    simp [extract_time_range, h1, h2, h3]
  · intro s h1 h2 h3
    simp [extract_time_range, h1, h2, h3]

/-- Claim C6, witness: the dash-pair branch applied to a plain range. -/
theorem C6_witness : extract_time_range "08:00 - 09:15" = (some "08:00", some "09:15") :=
  C6_theorem.1 "08:00 - 09:15" "08:00" "09:15" (by decide)

/-! ## Claim C7 -/

/-- Claim C7: table parsing fails with a descriptive terminal error, never an
empty success: an empty table list, a nonempty list without a matching
table, and a matching table without usable rows raise three pairwise
distinct error messages. -/
theorem C7_theorem :
    parse_table_entries [] = Except.error "Keine Tabelle im HTML gefunden." ∧
    (∀ tables : List (List (List String)), tables ≠ [] →
      (∀ t ∈ tables, tableMatches t = false) →
      parse_table_entries tables = Except.error "Keine passende Einsatz-Tabelle erkannt.") ∧
    (∀ (pre : List (List (List String))) (t : List (List String))
        (post : List (List (List String))),
      (∀ u ∈ pre, tableMatches u = false) → tableMatches t = true →
      entriesOfTable t = [] →
      parse_table_entries (pre ++ t :: post)
        = Except.error "Die Tabelle enthält keine auswertbaren Einsatz-Zeilen.") ∧
    (("Keine Tabelle im HTML gefunden." : String)
        ≠ "Keine passende Einsatz-Tabelle erkannt." ∧
     ("Keine Tabelle im HTML gefunden." : String)
        ≠ "Die Tabelle enthält keine auswertbaren Einsatz-Zeilen." ∧
     ("Keine passende Einsatz-Tabelle erkannt." : String)
        ≠ "Die Tabelle enthält keine auswertbaren Einsatz-Zeilen.") := by
  refine ⟨rfl, ?_, ?_, by decide, by decide, by decide⟩
  · intro tables hne hall
    have hfind : tables.find? tableMatches = none :=
      List.find?_eq_none.mpr (fun x hx => by simp [hall x hx])
    simp [parse_table_entries, hne, hfind]
  · intro pre t post hpre ht hempty
    have hfind : (pre ++ t :: post).find? tableMatches = some t := by
      rw [List.find?_append]
      have h1 : pre.find? tableMatches = none :=
        List.find?_eq_none.mpr (fun x hx => by simp [hpre x hx])
      rw [h1, List.find?_cons_of_pos _ ht]
      rfl
    have hne : (pre ++ t :: post).isEmpty = false := by simp
    simp [parse_table_entries, hne, hfind, hempty]

/-- Claim C7, witness: a table of gibberish trips the no-matching-table
error, and a header-only schedule table trips the no-usable-rows error. -/
theorem C7_witness :
    parse_table_entries [[["x", "y"]]]
      = Except.error "Keine passende Einsatz-Tabelle erkannt." ∧
    parse_table_entries ([] ++ [["Datum", "Uhrzeit"], ["nur", "kopf"]] :: [])
      = Except.error "Die Tabelle enthält keine auswertbaren Einsatz-Zeilen." :=
  ⟨C7_theorem.2.1 [[["x", "y"]]] (by decide) (by decide),
   C7_theorem.2.2.1 [] [["Datum", "Uhrzeit"], ["nur", "kopf"]] [] (by decide) (by decide)
     (by decide)⟩

/-! ## Claim C8 -/

/-- Claim C8: per-entry failures are contained. A row with fewer than two
cells or without an extractable date or start time yields no entry; dropping
such a row leaves the remaining rows' entries unchanged; an entry whose date
or time fails validation resolves to none and is skipped by build_ics while
every other entry is still emitted; month 13 and hour 24 are such failures. -/
theorem C8_theorem :
    (∀ (dcol : Option Nat) (cells : List String),
      cells.length < 2 ∨ extract_date (joinCells cells) = none ∨
        (extract_time_range (joinCells cells)).1 = none →
      rowEntry dcol cells = none) ∧
    (∀ (dcol : Option Nat) (pre post : List (List String)) (row : List String),
      rowEntry dcol row = none →
      (pre ++ row :: post).filterMap (rowEntry dcol)
        = (pre ++ post).filterMap (rowEntry dcol)) ∧
    (∀ (pre post : List Entry) (e : Entry), resolveEvent e = none →
      build_ics_events (pre ++ e :: post) = build_ics_events (pre ++ post)) ∧
    resolveEvent entryBadMonth = none ∧
    resolveEvent entryBadHour = none := by
  refine ⟨?_, ?_, ?_, by decide, by decide⟩
  · intro dcol cells h
    rcases h with h | h | h
    · simp [rowEntry, h]
    · rcases h2 : (extract_time_range (joinCells cells)).1 with _ | st <;>
        simp [rowEntry, h, h2]
    · rcases h2 : extract_date (joinCells cells) with _ | d <;>
        simp [rowEntry, h, h2]
  · intro dcol pre post row h
    simp [List.filterMap_append, List.filterMap_cons, h]
  · intro pre post e h
    simp [build_ics_events, List.filterMap_append, List.filterMap_cons, h]

/-- Claim C8, witness: a header row is dropped silently, and an entry with
month 13 is skipped while its sibling is still emitted. -/
theorem C8_witness :
    rowEntry none ["nur", "kopf"] = none ∧
    build_ics_events ([entryA] ++ entryBadMonth :: []) = build_ics_events ([entryA] ++ []) :=
  ⟨C8_theorem.1 none ["nur", "kopf"] (by decide),
   C8_theorem.2.2.1 [entryA] [] entryBadMonth (by decide)⟩

/-! ## Claim C9 -/

/-- Claim C9: infer_address tries, in fixed order with first match winning:
the captured text of an adresse label line of the description; a description
line with an isolated five-digit group; any cell with an isolated five-digit
group, stripped; the last nonempty description line when longer than ten
characters; and yields none when no rule applies. -/
theorem C9_theorem :
    (∀ (desc : String) (cells : List String) (l : String),
      (candLines desc).findSome? (fun ln => (findAdresse ln.data).map String.mk) = some l →
      infer_address desc cells = some l) ∧
    (∀ (desc : String) (cells : List String) (l : String),
      (candLines desc).findSome? (fun ln => (findAdresse ln.data).map String.mk) = none →
      (candLines desc).find? (fun ln => has5 ln) = some l →
      infer_address desc cells = some l) ∧
    (∀ (desc : String) (cells : List String) (c : String),
      (candLines desc).findSome? (fun ln => (findAdresse ln.data).map String.mk) = none →
      (candLines desc).find? (fun ln => has5 ln) = none →
      cells.find? (fun c => has5 c) = some c →
      infer_address desc cells = some (pyStrip c)) ∧
    (∀ (desc : String) (cells : List String) (last : String),
      (candLines desc).findSome? (fun ln => (findAdresse ln.data).map String.mk) = none →
      (candLines desc).find? (fun ln => has5 ln) = none →
      cells.find? (fun c => has5 c) = none →
      (candLines desc).getLast? = some last → 10 < last.length →
      infer_address desc cells = some last) ∧
    (∀ (desc : String) (cells : List String),
      (candLines desc).findSome? (fun ln => (findAdresse ln.data).map String.mk) = none →
      (candLines desc).find? (fun ln => has5 ln) = none →
      cells.find? (fun c => has5 c) = none →
      (∀ last, (candLines desc).getLast? = some last → last.length ≤ 10) →
      infer_address desc cells = none) := by
  refine ⟨?_, ?_, ?_, ?_, ?_⟩
  · intro desc cells l h
    simp [infer_address, h, Option.orElse]
  · intro desc cells l h1 h2
    simp [infer_address, h1, h2, Option.orElse]
  · intro desc cells c h1 h2 h3
    simp [infer_address, h1, h2, h3, Option.orElse]
  · intro desc cells last h1 h2 h3 hl hlen
    simp [infer_address, h1, h2, h3, hl, hlen, Option.orElse]
  · intro desc cells h1 h2 h3 h4
    simp only [infer_address, h1, h2, h3, Option.map_none, Option.orElse]
    rcases hl : (candLines desc).getLast? with _ | last
    · rfl
    · simp [Nat.not_lt.mpr (h4 last hl)]

/-- Claim C9, witness: the adresse label rule fires first. -/
theorem C9_witness :
    infer_address "Hausbesuch\nAdresse: Gartenstr. 5, 12345 Musterstadt" ["x"]
      = some "Gartenstr. 5, 12345 Musterstadt" :=
  C9_theorem.1 "Hausbesuch\nAdresse: Gartenstr. 5, 12345 Musterstadt" ["x"]
    "Gartenstr. 5, 12345 Musterstadt" (by decide)

/-! ## Claim C10 -/

/-- Claim C10: the Dauer column index is the first header cell of the first
row matching \bdauer\b; with such a column, a row long enough takes its
duration from that cell first and falls back to the joined row text exactly
when the cell yields nothing; a row too short, or a table without a Dauer
header, uses the joined row text directly; and the entries produced carry
exactly this duration. -/
theorem C10_theorem :
    (∀ t : List (List String),
      entriesOfTable t = t.filterMap (rowEntry (durColIdx (t.headD [])))) ∧
    (∀ (pre : List String) (c : String) (post : List String),
      (∀ x ∈ pre, hasDauer x = false) → hasDauer c = true →
      durColIdx (pre ++ c :: post) = some pre.length) ∧
    (∀ hs : List String, (∀ x ∈ hs, hasDauer x = false) → durColIdx hs = none) ∧
    (∀ (j : Nat) (cells : List String), j < cells.length →
      rowDuration (some j) cells
        = (extract_duration_minutes (cells.getD j "")).orElse
            (fun _ => extract_duration_minutes (joinCells cells))) ∧
    (∀ (j : Nat) (cells : List String), cells.length ≤ j →
      rowDuration (some j) cells = extract_duration_minutes (joinCells cells)) ∧
    (∀ cells : List String,
      rowDuration none cells = extract_duration_minutes (joinCells cells)) ∧
    (∀ (dcol : Option Nat) (cells : List String) (en : Entry),
      rowEntry dcol cells = some en → en.duration_minutes = rowDuration dcol cells) := by
  have go : ∀ (c : String) (post : List String), hasDauer c = true →
      ∀ (l : List String) (i : Nat), (∀ x ∈ l, hasDauer x = false) →
        durColIdxGo i (l ++ c :: post) = some (i + l.length) := by
    intro c post hc l
    induction l with
    | nil => intro i _; simp [durColIdxGo, hc]
    | cons a as ih =>
      intro i hall
      rw [List.cons_append]
      show (if hasDauer a = true then some i else durColIdxGo (i + 1) (as ++ c :: post))
        = some (i + (a :: as).length)
      rw [hall a (by simp), if_neg (by simp)]
      rw [ih (i + 1) (fun x hx => hall x (by simp [hx]))]
      simp
      omega
  refine ⟨fun t => rfl, ?_, ?_, ?_, ?_, fun cells => rfl, ?_⟩
  · intro pre c post hpre hc
    unfold durColIdx
    rw [go c post hc pre 0 hpre]
    simp
  · intro hs hall
    unfold durColIdx
    induction hs with
    | nil => rfl
    | cons a as ih =>
      show (if hasDauer a = true then some 0 else durColIdxGo 1 as) = none
      rw [hall a (by simp), if_neg (by simp)]
      have h2 : ∀ (i : Nat) (l : List String), (∀ x ∈ l, hasDauer x = false) →
          durColIdxGo i l = none := by
        intro i l
        induction l generalizing i with
        | nil => intro _; rfl
        | cons b bs ihb =>
          intro hall2
          show (if hasDauer b = true then some i else durColIdxGo (i + 1) bs) = none
          rw [hall2 b (by simp), if_neg (by simp)]
          exact ihb (i + 1) (fun x hx => hall2 x (by simp [hx]))
      exact h2 1 as (fun x hx => hall x (by simp [hx]))
  · intro j cells h
    simp only [rowDuration, h, if_pos]
    rcases hx : extract_duration_minutes (cells.getD j "") with _ | v <;> simp [Option.orElse]
  · intro j cells h
    simp [rowDuration, Nat.not_lt.mpr h]
  · intro dcol cells en h
    unfold rowEntry at h
    split at h
    · exact Option.noConfusion h
    · split at h
      · injection h with h
        subst h
        rfl
      · exact Option.noConfusion h

/-- Claim C10, witness: Dauer is found at index 3 of the sample header, and
the duration of the sample row comes from that cell. -/
theorem C10_witness :
    durColIdx (["Datum", "Uhrzeit von", "Uhrzeit bis"] ++ "Dauer" :: ["Beschreibung"])
      = some 3 ∧
    rowDuration (some 3) ["Do 14.08.25", "09:00", "08:30", "45 Minuten", "Besuch"]
      = (extract_duration_minutes "45 Minuten").orElse
          (fun _ => extract_duration_minutes
            (joinCells ["Do 14.08.25", "09:00", "08:30", "45 Minuten", "Besuch"])) :=
  ⟨C10_theorem.2.1 ["Datum", "Uhrzeit von", "Uhrzeit bis"] "Dauer" ["Beschreibung"]
     (by decide) (by decide),
   C10_theorem.2.2.2.1 3 ["Do 14.08.25", "09:00", "08:30", "45 Minuten", "Besuch"] (by decide)⟩

/-! ## Claim C3 -/

theorem dChar_digit (n : Nat) : digitB (dChar n) = true := by
  have h : n % 10 < 10 := Nat.mod_lt _ (by norm_num)
  unfold dChar
  rcases hk : n % 10 with _ | _ | _ | _ | _ | _ | _ | _ | _ | _ | k
  case succ.succ.succ.succ.succ.succ.succ.succ.succ.succ => rw [hk] at h; omega
  all_goals decide

theorem dChar_not_dot (n : Nat) : isDot (dChar n) = false := by
  have h : n % 10 < 10 := Nat.mod_lt _ (by norm_num)
  unfold dChar
  rcases hk : n % 10 with _ | _ | _ | _ | _ | _ | _ | _ | _ | _ | k
  case succ.succ.succ.succ.succ.succ.succ.succ.succ.succ => rw [hk] at h; omega
  all_goals decide

/-- The date scan skips a digit-free prefix: no match can start inside it. -/
theorem findDate_skip (p rest : List Char) (hp : ∀ c ∈ p, digitB c = false) :
    findDate (p ++ rest) = findDate rest := by
  induction p with
  | nil => rfl
  | cons c cs ih =>
    rw [List.cons_append]
    have hm : matchDateAt (c :: (cs ++ rest)) = none := by
      simp [matchDateAt, dayDot, hp c (by simp)]
    show (match matchDateAt (c :: (cs ++ rest)) with
          | some m => some m
          | none => findDate (cs ++ rest)) = findDate rest
    rw [hm]
    exact ih (fun x hx => hp x (by simp [hx]))

theorem digitB_dot : digitB '.' = false := rfl

theorem isDot_dot : isDot '.' = true := rfl

/-- The date match anchored at a date of shape D.M.YY consumes exactly the
two year digits, whatever follows. -/
theorem findDate_core (dayL monL : List Char) (y1 y2 : Nat) (s : List Char)
    (hday : digitShape12 dayL) (hmon : digitShape12 monL) :
    findDate (dayL ++ '.' :: monL ++ '.' :: dChar y1 :: dChar y2 :: s)
      = some (dayL ++ '.' :: monL ++ '.' :: [dChar y1, dChar y2]) := by
  rcases hday with ⟨a, rfl⟩ | ⟨a, b, rfl⟩ <;> rcases hmon with ⟨m1, rfl⟩ | ⟨m1, m2, rfl⟩ <;>
    simp [findDate, matchDateAt, dayDot, dayDotTail, year2, dChar_digit, dChar_not_dot,
      digitB_dot, isDot_dot]

/-- Claim C3, the code at the failing input: on a date with a four-digit
year, extract_date does not return the full substring; the ordered
alternation (?:\d{2}|\d{4}) takes the two-digit branch without a trailing
boundary to force backtracking, truncating the year to its first two digits
(so the four-digit branch is dead code, although parse_german_date handles
four-digit years: a slip in the pattern, not intent). -/
theorem C3_counterexample :
    extract_date "1.2.2024" = some "1.2.20" ∧
    extract_date "1.2.2024" ≠ some "1.2.2024" :=
  ⟨by decide, by decide⟩

/-- Claim C3, the parts the code honours: for an input made of a digit-free
prefix and a first date-shaped substring D.M.YY (day and month of one or two
digits), followed by anything, extract_date returns exactly that substring;
when the year has four digits only its first two digits are returned; and
parse_german_date expands two-digit years as 00-69 to 20xx and 70-99 to
19xx. -/
theorem C3_theorem :
    (∀ (p : List Char) (dayL monL : List Char) (y1 y2 : Nat) (s : List Char),
      (∀ c ∈ p, digitB c = false) → digitShape12 dayL → digitShape12 monL →
      extract_date (String.mk (p ++ (dayL ++ '.' :: monL ++ '.' :: dChar y1 :: dChar y2 :: s)))
        = some (String.mk (dayL ++ '.' :: monL ++ '.' :: [dChar y1, dChar y2]))) ∧
    (∀ (p : List Char) (dayL monL : List Char) (y1 y2 y3 y4 : Nat) (s : List Char),
      (∀ c ∈ p, digitB c = false) → digitShape12 dayL → digitShape12 monL →
      extract_date (String.mk (p ++ (dayL ++ '.' :: monL ++ '.' ::
          dChar y1 :: dChar y2 :: dChar y3 :: dChar y4 :: s)))
        = some (String.mk (dayL ++ '.' :: monL ++ '.' :: [dChar y1, dChar y2]))) ∧
    (∀ y : Nat, y < 100 →
      parse_german_date (String.mk ('1' :: '.' :: '1' :: '.' :: pad2 y))
        = some ⟨if y < 70 then 2000 + y else 1900 + y, 1, 1⟩) := by
  have core : ∀ (p : List Char) (dayL monL : List Char) (y1 y2 : Nat) (s : List Char),
      (∀ c ∈ p, digitB c = false) → digitShape12 dayL → digitShape12 monL →
      extract_date (String.mk (p ++ (dayL ++ '.' :: monL ++ '.' :: dChar y1 :: dChar y2 :: s)))
        = some (String.mk (dayL ++ '.' :: monL ++ '.' :: [dChar y1, dChar y2])) := by
    intro p dayL monL y1 y2 s hp hday hmon
    show ((findDate (p ++ (dayL ++ '.' :: monL ++ '.' :: dChar y1 :: dChar y2 :: s))).map
      String.mk) = some (String.mk (dayL ++ '.' :: monL ++ '.' :: [dChar y1, dChar y2]))
    rw [findDate_skip p _ hp, findDate_core dayL monL y1 y2 s hday hmon]
    rfl
  refine ⟨core, ?_, by decide⟩
  intro p dayL monL y1 y2 y3 y4 s hp hday hmon
  exact core p dayL monL y1 y2 (dChar y3 :: dChar y4 :: s) hp hday hmon

/-- Concrete instance of C3_theorem: the date 13.8.25 after the digit-free
prefix "Mi " is extracted exactly. -/
theorem C3_witness :
    extract_date (String.mk (['M', 'i', ' '] ++ ([dChar 1, dChar 3] ++ '.' :: [dChar 8] ++ '.' ::
        dChar 2 :: dChar 5 :: [])))
      = some (String.mk ([dChar 1, dChar 3] ++ '.' :: [dChar 8] ++ '.' :: [dChar 2, dChar 5])) :=
  C3_theorem.1 ['M', 'i', ' '] [dChar 1, dChar 3] [dChar 8] 2 5 [] (by decide)
    (Or.inr ⟨1, 3, rfl⟩) (Or.inl ⟨8, rfl⟩)

/-! ## Claim C4 -/

/-- Claim C4, counterexample: extract_duration_minutes("2,30") is 138, not
150: the code computes hours*60 + round(F/base*60) = 120 + round(0.30*60)
= 120 + 18, exactly as the formula of the claim itself prescribes. -/
theorem C4_counterexample :
    extract_duration_minutes "2,30" = some 138 ∧
    extract_duration_minutes "2,30" ≠ some 150 :=
  ⟨by decide, by decide⟩

/-- Claim C4, amended: extract_duration_minutes returns 120 for "2,0 Std.",
90 for "90 Minuten", and 138 for "2,30" (per the formula, not 150); for an
hour phrase with a 1- or 2-digit fractional part F the result is
hours*60 + round(F/base*60) with base 10 for one and 100 for two fractional
digits (round is Python rounding, here exact: ties cannot arise); and a bare
integer with no unit is treated as whole hours. -/
theorem C4_theorem :
    extract_duration_minutes "2,0 Std." = some 120 ∧
    extract_duration_minutes "90 Minuten" = some 90 ∧
    extract_duration_minutes "2,30" = some (2 * 60 + roundHalfEven (30 * 60) 100) ∧
    (∀ h : Nat, h < 10 → ∀ f : Nat, f < 10 →
      extract_duration_minutes (String.mk [dChar h, ',', dChar f])
        = some (h * 60 + roundHalfEven (f * 60) 10)) ∧
    (∀ h : Nat, h < 10 → ∀ f : Nat, f < 10 →
      extract_duration_minutes (String.mk [dChar h, '.', dChar f])
        = some (h * 60 + roundHalfEven (f * 60) 10)) ∧
    (∀ h : Nat, h < 10 → ∀ f1 : Nat, f1 < 10 → ∀ f2 : Nat, f2 < 10 →
      extract_duration_minutes (String.mk [dChar h, ',', dChar f1, dChar f2])
        = some (h * 60 + roundHalfEven ((10 * f1 + f2) * 60) 100)) ∧
    (∀ h1 : Nat, h1 < 10 → ∀ h2 : Nat, h2 < 10 → ∀ f : Nat, f < 10 →
      extract_duration_minutes (String.mk [dChar h1, dChar h2, ',', dChar f])
        = some ((10 * h1 + h2) * 60 + roundHalfEven (f * 60) 10)) ∧
    (∀ h : Nat, h < 10 →
      extract_duration_minutes (String.mk [dChar h]) = some (h * 60)) ∧
    (∀ h1 : Nat, h1 < 10 → ∀ h2 : Nat, h2 < 10 →
      extract_duration_minutes (String.mk [dChar h1, dChar h2]) = some ((10 * h1 + h2) * 60)) :=
  ⟨by decide, by decide, by decide, by decide, by decide, by decide, by decide, by decide,
   by decide⟩

/-- Claim C4, witness: 1,5 hours are 90 minutes. -/
theorem C4_witness :
    extract_duration_minutes (String.mk [dChar 1, ',', dChar 5])
      = some (1 * 60 + roundHalfEven (5 * 60) 10) :=
  C4_theorem.2.2.2.1 1 (by decide) 5 (by decide)
